import Mathlib

/-!
Verification of the bonding-curve ledger engine and its TypeScript clients
(`practice-solana-smart-contract-bonding-curve`).

The repository ships the TypeScript clients, the CLI, the Anchor test
suites, the IDL description and the deployment documentation, but not the
Rust source of the on-chain program itself (`programs/.../src/lib.rs` is
referenced by the docs yet absent).  The deterministic state-transition
logic of the engine (Initialize / Buy / Sell / Quote) is therefore
modelled from the specification; every definition that originates from
the spec rather than from a source file says so in its doc comment.
Client-side code that is present (`token-creator.ts`, the PDA
derivations, the CLI scripts) is embedded directly from the source.
-/

deriving instance DecidableEq for Except

namespace BondingCurve

/-- The exclusive upper bound of the unsigned 64-bit range used by the
engine's arithmetic safety layer. -/
def U64 : Nat := 2 ^ 64

/-- Modelled from the spec: the arithmetic safety layer's checked
addition over unsigned 64-bit integers; returns `none` instead of
wrapping when the sum leaves the u64 range. -/
def checkedAdd (a b : Nat) : Option Nat :=
  if a + b < U64 then some (a + b) else none

/-- Modelled from the spec: the arithmetic safety layer's checked
multiplication over unsigned 64-bit integers; returns `none` instead of
wrapping when the product leaves the u64 range. -/
def checkedMul (a b : Nat) : Option Nat :=
  if a * b < U64 then some (a * b) else none

/-- The failure kinds of the engine's public contract (spec §7 error
taxonomy; the deployment documentation lists the same kinds as error
codes 6000-6013 plus the lookup failures). -/
inductive Err where
  | invalidPrice
  | invalidSlope
  | nameTooLong
  | symbolTooLong
  | invalidAmount
  | insufficientPayment
  | insufficientSupply
  | insufficientReserves
  | supplyOverflow
  | supplyUnderflow
  | reservesOverflow
  | reservesUnderflow
  | priceOverflow
  | mathOverflow
  | curveNotFound
  | alreadyInitialized
deriving DecidableEq, Repr

/-- The mutable numeric state of one CurveRecord (spec §3; mirrors the
`BondingCurve` account struct in the deployment documentation:
`initial_price`, `slope`, `current_supply`, `sol_reserves`, all u64). -/
structure CurveState where
  initialPrice : Nat
  slope : Nat
  currentSupply : Nat
  reserveBalance : Nat
deriving DecidableEq, Repr

/-- Modelled from the spec (§4.1): the marginal price function
`price(supply) = initialPrice + supply * slope`, computed with checked
u64 multiplication and addition, failing with `PriceOverflow` when the
product or the sum leaves the u64 range. -/
def priceOf (c : CurveState) : Except Err Nat :=
  match checkedMul c.currentSupply c.slope with
  | none => .error .priceOverflow
  | some m =>
    match checkedAdd c.initialPrice m with
    | none => .error .priceOverflow
    | some p => .ok p

/-- The cumulative cost of minting `T` shares starting from supply `S`
(spec §4.3): `cost(T) = T*initialPrice + slope*(S*T + T*(T-1)/2)`.
This is the exact mathematical value, over unbounded naturals. -/
def cost (p0 sl S T : Nat) : Nat :=
  T * p0 + sl * (S * T + T * (T - 1) / 2)

/-- Modelled from the spec (§4.3): the cost formula evaluated with the
checked arithmetic layer; `none` signals `MathOverflow`. -/
def costChecked (p0 sl S T : Nat) : Option Nat :=
  (checkedMul T p0).bind fun base =>
  (checkedMul S T).bind fun area1 =>
  (checkedMul T (T - 1)).bind fun tri =>
  (checkedAdd area1 (tri / 2)).bind fun area =>
  (checkedMul sl area).bind fun slopePart =>
  checkedAdd base slopePart

/-- Modelled from the spec (§4.3): the number of shares a Buy mints —
the largest `T` with `cost(T) ≤ payment`, found by search over
`T` bounded by `payment / initialPrice`. -/
def maxShares (p0 sl S payment : Nat) : Nat :=
  Nat.findGreatest (fun T => cost p0 sl S T ≤ payment) (payment / p0)

/-- The result record of a successful Buy (spec §4.3 / §6:
`sharesMinted`, `amountCharged`, and the `payment − cost(T)` remainder
returned to the buyer). -/
structure BuyOutcome where
  minted : Nat
  charged : Nat
  changeReturned : Nat
deriving DecidableEq, Repr

/-- Modelled from the spec (§4.3): the Buy handler on one Active curve.
`payment == 0` fails `InvalidAmount`; a maximal mintable count of zero
fails `InsufficientPayment`; the cost formula uses the checked layer
(`MathOverflow`); the supply and reserve updates are checked
(`SupplyOverflow`, `ReservesOverflow`).  Errors produce no new state. -/
def buy (c : CurveState) (payment : Nat) : Except Err (CurveState × BuyOutcome) :=
  if payment = 0 then .error .invalidAmount
  else if maxShares c.initialPrice c.slope c.currentSupply payment = 0 then
    .error .insufficientPayment
  else
    match costChecked c.initialPrice c.slope c.currentSupply
        (maxShares c.initialPrice c.slope c.currentSupply payment) with
    | none => .error .mathOverflow
    | some charged =>
      match checkedAdd c.currentSupply
          (maxShares c.initialPrice c.slope c.currentSupply payment) with
      | none => .error .supplyOverflow
      | some newSupply =>
        match checkedAdd c.reserveBalance charged with
        | none => .error .reservesOverflow
        | some newReserve =>
          .ok ({ c with currentSupply := newSupply, reserveBalance := newReserve },
               { minted := maxShares c.initialPrice c.slope c.currentSupply payment,
                 charged := charged, changeReturned := payment - charged })

/-- The refund owed for retiring the top `N` shares at supply `S`
(spec §4.4): `refund = N*initialPrice + slope*((S-N)*N + N*(N-1)/2)`. -/
def sellRefund (p0 sl S N : Nat) : Nat :=
  N * p0 + sl * ((S - N) * N + N * (N - 1) / 2)

/-- The result record of a successful Sell (spec §4.4 / §6:
`sharesBurned`, `amountReceived`). -/
structure SellOutcome where
  burned : Nat
  refunded : Nat
deriving DecidableEq, Repr

/-- Modelled from the spec (§4.4): the Sell handler on one Active curve.
`shareAmount == 0` fails `InvalidAmount`; more shares than exist fails
`InsufficientSupply`; a refund beyond the held reserves fails
`InsufficientReserves`.  §6 lists no `MathOverflow` kind for Sell: any
refund beyond the u64 reserve is already caught by the reserve check,
so the refund is compared as its exact value.  Errors produce no new
state. -/
def sell (c : CurveState) (amount : Nat) : Except Err (CurveState × SellOutcome) :=
  if amount = 0 then .error .invalidAmount
  else if c.currentSupply < amount then .error .insufficientSupply
  else if c.reserveBalance < sellRefund c.initialPrice c.slope c.currentSupply amount then
    .error .insufficientReserves
  else
    .ok ({ c with currentSupply := c.currentSupply - amount,
                  reserveBalance :=
                    c.reserveBalance -
                      sellRefund c.initialPrice c.slope c.currentSupply amount },
         { burned := amount,
           refunded := sellRefund c.initialPrice c.slope c.currentSupply amount })

/-- Parameters accepted by Initialize (spec §4.2). -/
structure InitParams where
  initialPrice : Nat
  slope : Nat
  name : String
  symbol : String
  metadataUri : String
deriving DecidableEq, Repr

/-- The durable keyed store of curve records: one record per share-type
identifier (spec §3, §9 "arena + index" design note). -/
def Store := List (Nat × CurveState)

/-- Look a curve record up by its share-type identifier. -/
def lookupCurve (st : Store) (id : Nat) : Option CurveState :=
  (List.find? (fun p => p.1 == id) st).map Prod.snd

/-- Replace the record stored under `id`. -/
def updateCurve (st : Store) (id : Nat) (c : CurveState) : Store :=
  List.map (fun p => if p.1 == id then (id, c) else p) st

/-- Modelled from the spec (§4.2): the Initialize handler.  Parameter
validation (`InvalidPrice`, `InvalidSlope`, `NameTooLong`,
`SymbolTooLong`) happens before any storage write; an existing record
at the derived address fails `AlreadyInitialized`; on success a record
with `currentSupply = 0` and `reserveBalance = 0` is allocated.  The
store is returned unchanged on every failure. -/
def initializeOp (st : Store) (id : Nat) (pr : InitParams) :
    Store × Except Err Unit :=
  if pr.initialPrice = 0 then (st, .error .invalidPrice)
  else if pr.slope = 0 then (st, .error .invalidSlope)
  else if 32 < pr.name.length then (st, .error .nameTooLong)
  else if 10 < pr.symbol.length then (st, .error .symbolTooLong)
  else
    match lookupCurve st id with
    | some _ => (st, .error .alreadyInitialized)
    | none => ((id, ⟨pr.initialPrice, pr.slope, 0, 0⟩) :: st, .ok ())

/-- Modelled from the spec (§4.3, §4.8 state machine): the Buy operation
against the store; a missing record fails `CurveNotFound`, and every
failure returns the store untouched. -/
def buyOp (st : Store) (id payment : Nat) : Store × Except Err BuyOutcome :=
  match lookupCurve st id with
  | none => (st, .error .curveNotFound)
  | some c =>
    match buy c payment with
    | .error e => (st, .error e)
    | .ok (c', out) => (updateCurve st id c', .ok out)

/-- Modelled from the spec (§4.4): the Sell operation against the store;
a missing record fails `CurveNotFound`, and every failure returns the
store untouched. -/
def sellOp (st : Store) (id amount : Nat) : Store × Except Err SellOutcome :=
  match lookupCurve st id with
  | none => (st, .error .curveNotFound)
  | some c =>
    match sell c amount with
    | .error e => (st, .error e)
    | .ok (c', out) => (updateCurve st id c', .ok out)

/-- Modelled from the spec (§4.5): the read-only Quote operation.  It
echoes `currentSupply` and `reserveBalance` and reports the checked
price-function result; the operation itself has no failure mode beyond
`CurveNotFound` and never mutates the store. -/
def quoteOp (st : Store) (id : Nat) :
    Store × Except Err (Nat × Nat × Except Err Nat) :=
  match lookupCurve st id with
  | none => (st, .error .curveNotFound)
  | some c => (st, .ok (c.currentSupply, c.reserveBalance, priceOf c))

/-- A successful trade against one curve, for reasoning about sequences
of operations (spec §8 conservation property). -/
inductive TradeOp where
  | buyT (payment : Nat)
  | sellT (amount : Nat)
deriving DecidableEq, Repr

/-- Execute one trade, recording the amount charged by a Buy and the
amount paid out by a Sell; `none` when the operation fails. -/
def execTrade (c : CurveState) : TradeOp → Option (CurveState × Nat × Nat)
  | .buyT p =>
    match buy c p with
    | .ok (c', out) => some (c', out.charged, 0)
    | .error _ => none
  | .sellT n =>
    match sell c n with
    | .ok (c', out) => some (c', 0, out.refunded)
    | .error _ => none

/-- Run a sequence of trades that must all succeed, accumulating the
total charged by Buys and the total paid out by Sells. -/
def runTrades : CurveState → List TradeOp → Option (CurveState × Nat × Nat)
  | c, [] => some (c, 0, 0)
  | c, op :: rest =>
    match execTrade c op with
    | none => none
    | some (c', ch, pd) =>
      match runTrades c' rest with
      | none => none
      | some (c'', chR, pdR) => some (c'', ch + chR, pd + pdR)

/-- An account address as the repository's client code derives it.
`ext` is an externally supplied key (such as a token mint); `pda` is
`PublicKey.findProgramAddressSync([Buffer.from(tag), parent.toBuffer()],
programId)` under the single bonding-curve program id — every derivation
in the repository has exactly this one-tag-one-key shape.  The SHA-256
based derivation of `@solana/web3.js` is idealized as an injective
constructor, reflecting the collision resistance of the hash: distinct
seed lists yield distinct addresses. -/
inductive Addr where
  | ext (id : Nat)
  | pda (tag : String) (parent : Addr)
deriving DecidableEq, Repr

/-- The bonding-curve PDA, seeds `["bonding_curve", tokenMint]` — every
client file agrees on this derivation (`token-creator.ts` line 99,
`BondingCurveClient.buyTokens`, `create-token.ts` line 34, the buy
script, both test suites). -/
def bondingCurvePdaOf (mint : Addr) : Addr :=
  .pda "bonding_curve" mint

/-- The SOL-vault derivation used by `BondingCurveClient.buyTokens` and
`sellTokens` and by `TokenCreator.createToken` (`token-creator.ts`
lines 105-107): seeds `["sol_vault", bondingCurvePda]`. -/
def solVaultOfClient (mint : Addr) : Addr :=
  .pda "sol_vault" (bondingCurvePdaOf mint)

/-- The SOL-vault derivation used by `create-token.ts` (lines 39-42),
the standalone buy script (lines 102-105) and the sell script, and
documented in `BONDING_CURVE_DEPLOYMENT.md`: seeds
`["sol_vault", tokenMint]`. -/
def solVaultOfScripts (mint : Addr) : Addr :=
  .pda "sol_vault" mint

/-- The client-side parameters of `TokenCreator.createToken`
(`token-creator.ts`): the numeric fields are JavaScript numbers, whose
order comparisons are embedded over the rationals (`decimals` over the
integers). -/
structure TokenCreationParams where
  name : String
  symbol : String
  uri : Option String
  decimals : Int
  initialPrice : Rat
  curveSlope : Rat

/-- `TokenCreator.validateTokenParams` (`token-creator.ts` lines
206-249), embedded check for check and in source order; a thrown
`Error(msg)` becomes `.error msg`.  `createToken` invokes it (line 87)
before the transaction is built or sent, so an error here aborts
creation with no on-chain effect. -/
def validateTokenParams (p : TokenCreationParams) : Except String Unit :=
  if p.name.length = 0 then .error "Token name cannot be empty"
  else if 32 < p.name.length then .error "Token name too long (max 32 characters)"
  else if p.symbol.length = 0 then .error "Token symbol cannot be empty"
  else if 10 < p.symbol.length then .error "Token symbol too long (max 10 characters)"
  else if p.decimals < 0 ∨ 18 < p.decimals then
    .error "Token decimals must be between 0 and 18"
  else if p.initialPrice ≤ 0 then .error "Initial price must be greater than 0"
  else if 1000 < p.initialPrice then
    .error "Initial price seems too high (greater than 1000 SOL per token)"
  else if p.curveSlope ≤ 0 then .error "Curve slope must be greater than 0"
  else if 1 < p.curveSlope then
    .error "Curve slope seems too high (greater than 1 SOL per token)"
  else
    match p.uri with
    | some u =>
      if 200 < u.length then .error "Metadata URI too long (max 200 characters)"
      else .ok ()
    | none => .ok ()

/-- `true` exactly when an operation reported a failure. -/
def isFailure : Except String Unit → Bool
  | .error _ => true
  | .ok _ => false

/-- The curve of the spec's §8 scenario and of "Token 2" in
`BONDING_CURVE_DEPLOYMENT.md`: `initialPrice = 1_000_000` lamports,
`slope = 100`, fresh at supply 0 and reserve 0. -/
def curveScenario : CurveState :=
  { initialPrice := 1000000, slope := 100, currentSupply := 0, reserveBalance := 0 }

/-! ### Helper lemmas about the arithmetic layer and the handlers -/

theorem checkedAdd_eq_some {a b v : Nat} :
    checkedAdd a b = some v ↔ a + b < U64 ∧ v = a + b := by
  unfold checkedAdd
  split <;> simp_all
  omega

theorem checkedMul_eq_some {a b v : Nat} :
    checkedMul a b = some v ↔ a * b < U64 ∧ v = a * b := by
  unfold checkedMul
  split <;> simp_all
  omega

theorem costChecked_eq_some {p0 sl S T v : Nat}
    (h : costChecked p0 sl S T = some v) : v = cost p0 sl S T := by
  simp only [costChecked, Option.bind_eq_some, checkedAdd_eq_some,
    checkedMul_eq_some] at h
  obtain ⟨base, ⟨hb, rfl⟩, area1, ⟨ha1, rfl⟩, tri, ⟨ht, rfl⟩,
    area, ⟨haa, rfl⟩, sp, ⟨hsp, rfl⟩, hv, rfl⟩ := h
  simp [cost]

theorem le_cost (p0 sl S T : Nat) : T * p0 ≤ cost p0 sl S T :=
  Nat.le_add_right _ _

theorem payment_lt_cost_of_div_lt {p0 payment : Nat} (sl S T : Nat)
    (hp0 : 0 < p0) (h : payment / p0 < T) : payment < cost p0 sl S T :=
  lt_of_lt_of_le ((Nat.div_lt_iff_lt_mul hp0).mp h) (le_cost p0 sl S T)

theorem cost_maxShares_le (p0 sl S payment : Nat) :
    cost p0 sl S (maxShares p0 sl S payment) ≤ payment := by
  have h0 : cost p0 sl S 0 ≤ payment := by simp [cost]
  exact Nat.findGreatest_spec (P := fun T => cost p0 sl S T ≤ payment)
    (m := 0) (n := payment / p0) (Nat.zero_le _) h0

theorem le_maxShares_of_cost_le {p0 sl S payment T : Nat} (hp0 : 0 < p0)
    (h : cost p0 sl S T ≤ payment) : T ≤ maxShares p0 sl S payment := by
  by_cases hb : T ≤ payment / p0
  · exact Nat.le_findGreatest hb h
  · exact absurd h
      (not_le.mpr (payment_lt_cost_of_div_lt sl S T hp0 (not_le.mp hb)))

theorem priceOf_ok {c : CurveState} {v : Nat} (h : priceOf c = .ok v) :
    v = c.initialPrice + c.currentSupply * c.slope := by
  unfold priceOf at h
  split at h
  · simp at h
  next m hm =>
    split at h
    · simp at h
    next p hp =>
      obtain ⟨_, rfl⟩ := checkedMul_eq_some.mp hm
      obtain ⟨_, rfl⟩ := checkedAdd_eq_some.mp hp
      simp at h
      omega

theorem buy_error_kinds {c : CurveState} {payment : Nat} {e : Err}
    (h : buy c payment = .error e) :
    e = .invalidAmount ∨ e = .insufficientPayment ∨ e = .mathOverflow ∨
      e = .supplyOverflow ∨ e = .reservesOverflow := by
  unfold buy at h
  repeat' split at h
  all_goals simp_all

theorem sell_error_kinds {c : CurveState} {amount : Nat} {e : Err}
    (h : sell c amount = .error e) :
    e = .invalidAmount ∨ e = .insufficientSupply ∨ e = .insufficientReserves := by
  unfold sell at h
  repeat' split at h
  all_goals simp_all

theorem buy_ok_reserve {c c' : CurveState} {payment : Nat} {out : BuyOutcome}
    (h : buy c payment = .ok (c', out)) :
    c'.reserveBalance = c.reserveBalance + out.charged := by
  unfold buy at h
  repeat' split at h
  all_goals simp_all [checkedAdd_eq_some]
  obtain ⟨rfl, rfl⟩ := h
  simp

theorem sell_ok_reserve {c c' : CurveState} {amount : Nat} {out : SellOutcome}
    (h : sell c amount = .ok (c', out)) :
    c'.reserveBalance + out.refunded = c.reserveBalance := by
  unfold sell at h
  repeat' split at h
  all_goals simp_all
  obtain ⟨rfl, rfl⟩ := h
  simp
  omega

theorem execTrade_reserve {c c' : CurveState} {op : TradeOp} {ch pd : Nat}
    (h : execTrade c op = some (c', ch, pd)) :
    c'.reserveBalance + pd = c.reserveBalance + ch := by
  cases op with
  | buyT p =>
    simp only [execTrade] at h
    split at h
    next heq =>
      simp at h
      obtain ⟨rfl, rfl, rfl⟩ := h
      simp [buy_ok_reserve heq]
    next heq => exact absurd h (by simp)
  | sellT n =>
    simp only [execTrade] at h
    split at h
    next heq =>
      simp at h
      obtain ⟨rfl, rfl, rfl⟩ := h
      simp [← sell_ok_reserve heq]
    next heq => exact absurd h (by simp)

theorem runTrades_reserve {ops : List TradeOp} :
    ∀ {c c' : CurveState} {ch pd : Nat},
      runTrades c ops = some (c', ch, pd) →
      c'.reserveBalance + pd = c.reserveBalance + ch := by
  induction ops with
  | nil =>
    intro c c' ch pd h
    simp [runTrades] at h
    obtain ⟨rfl, rfl, rfl⟩ := h
    simp
  | cons op rest ih =>
    intro c c' ch pd h
    simp only [runTrades] at h
    split at h
    · simp at h
    next c1 ch1 pd1 heq1 =>
      split at h
      · simp at h
      next c2 ch2 pd2 heq2 =>
        simp at h
        obtain ⟨rfl, rfl, rfl⟩ := h
        have h1 := execTrade_reserve heq1
        have h2 := ih heq2
        omega

/-! ### Claim theorems -/

/-- C1: for every Buy with `payment > 0` against an Active curve at
supply `S`, the engine mints exactly the maximum integer `T ≥ 0` with
`cost(T) = T*initialPrice + slope*(S*T + T*(T-1)/2) ≤ payment`, and it
fails with the `InsufficientPayment` kind — leaving the store unchanged —
exactly when that maximum is 0.  (`initialPrice > 0` is guaranteed for
every Active curve by Initialize's `InvalidPrice` check.) -/
theorem buy_mints_maximum (c : CurveState) (payment : Nat)
    (hp0 : 0 < c.initialPrice) (hpay : 0 < payment) :
    (buy c payment = .error .insufficientPayment ↔
      maxShares c.initialPrice c.slope c.currentSupply payment = 0)
    ∧ (∀ c' out, buy c payment = .ok (c', out) →
        out.minted = maxShares c.initialPrice c.slope c.currentSupply payment ∧
        0 < out.minted ∧
        cost c.initialPrice c.slope c.currentSupply out.minted ≤ payment ∧
        (∀ T, cost c.initialPrice c.slope c.currentSupply T ≤ payment →
          T ≤ out.minted))
    ∧ (∀ st id, lookupCurve st id = some c →
        maxShares c.initialPrice c.slope c.currentSupply payment = 0 →
        buyOp st id payment = (st, .error .insufficientPayment)) := by
  have hpz : ¬ payment = 0 := Nat.pos_iff_ne_zero.mp hpay
  refine ⟨⟨?_, ?_⟩, ?_, ?_⟩
  · intro h
    by_contra hT
    unfold buy at h
    rw [if_neg hpz, if_neg hT] at h
    repeat' split at h
    all_goals simp_all
  · intro hT
    unfold buy
    rw [if_neg hpz, if_pos hT]
  · intro c' out h
    unfold buy at h
    rw [if_neg hpz] at h
    split at h
    · simp at h
    next hT =>
      repeat' split at h
      all_goals simp_all
      obtain ⟨rfl, rfl⟩ := h
      refine ⟨rfl, Nat.pos_of_ne_zero hT, cost_maxShares_le _ _ _ _, ?_⟩
      intro T hT'
      exact le_maxShares_of_cost_le hp0 hT'
  · intro st id hlk hT
    have hb : buy c payment = .error .insufficientPayment := by
      unfold buy
      rw [if_neg hpz, if_pos hT]
    simp [buyOp, hlk, hb]

/-- Witness for C1: the scenario curve with a payment of 10,000,000
lamports satisfies both hypotheses, and the instantiated equivalence
holds. -/
theorem buy_mints_maximum_witness :
    buy curveScenario 10000000 = .error .insufficientPayment ↔
      maxShares curveScenario.initialPrice curveScenario.slope
        curveScenario.currentSupply 10000000 = 0 :=
  (buy_mints_maximum curveScenario 10000000 (by decide) (by decide)).1

/-- C2 counterexample: at `initialize(initialPrice=1_000_000, slope=100)`
and `buy(payment=10_000_000)` the engine mints `T=9` but charges
9,003,600 — the cost formula gives `9*1_000_000 + 100*(9*8/2)` — and
returns 996,400, not the 1,003,600 / 8,996,400 of the claim. -/
theorem scenario_charged_counterexample :
    buy curveScenario 10000000 =
      .ok ({ initialPrice := 1000000, slope := 100,
             currentSupply := 9, reserveBalance := 9003600 },
           { minted := 9, charged := 9003600, changeReturned := 996400 })
    ∧ buy curveScenario 10000000 ≠
      .ok ({ initialPrice := 1000000, slope := 100,
             currentSupply := 9, reserveBalance := 1003600 },
           { minted := 9, charged := 1003600, changeReturned := 8996400 }) := by
  decide

/-- C2 amended: `buy(payment=10_000_000)` on the freshly initialized
scenario curve mints `T=9` shares at a charged cost of 9,003,600 with
996,400 returned to the buyer, leaving `currentSupply=9` and
`reserveBalance=9,003,600`; a subsequent `sell(shareAmount=9)` returns a
refund of exactly 9,003,600 and resets supply and reserve to 0. -/
theorem scenario_amended :
    buy curveScenario 10000000 =
      .ok ({ initialPrice := 1000000, slope := 100,
             currentSupply := 9, reserveBalance := 9003600 },
           { minted := 9, charged := 9003600, changeReturned := 996400 })
    ∧ sell { initialPrice := 1000000, slope := 100,
             currentSupply := 9, reserveBalance := 9003600 } 9 =
      .ok ({ initialPrice := 1000000, slope := 100,
             currentSupply := 0, reserveBalance := 0 },
           { burned := 9, refunded := 9003600 }) := by
  decide

/-- C3: a Sell of `N` shares at supply `S` fails `InsufficientSupply`
when `N > S`; otherwise the refund owed is
`N*initialPrice + slope*((S-N)*N + N*(N-1)/2)`, the operation fails
`InsufficientReserves` (paying nothing) when that refund exceeds
`reserveBalance`, and on success the supply drops by `N` and the reserve
drops by exactly the refund. -/
theorem sell_spec (c : CurveState) (N : Nat) :
    (c.currentSupply < N → sell c N = .error .insufficientSupply)
    ∧ (0 < N → N ≤ c.currentSupply →
        (c.reserveBalance < sellRefund c.initialPrice c.slope c.currentSupply N →
          sell c N = .error .insufficientReserves)
        ∧ (sellRefund c.initialPrice c.slope c.currentSupply N ≤ c.reserveBalance →
            sell c N =
              .ok ({ c with
                      currentSupply := c.currentSupply - N,
                      reserveBalance :=
                        c.reserveBalance -
                          sellRefund c.initialPrice c.slope c.currentSupply N },
                   { burned := N,
                     refunded :=
                       sellRefund c.initialPrice c.slope c.currentSupply N }))) := by
  constructor
  · intro h
    have hN : ¬ N = 0 := by omega
    simp [sell, hN, h]
  · intro hN hle
    have hN0 : ¬ N = 0 := by omega
    have hns : ¬ c.currentSupply < N := not_lt.mpr hle
    constructor
    · intro hres
      simp [sell, hN0, hns, hres]
    · intro hres
      have hnr : ¬ c.reserveBalance <
          sellRefund c.initialPrice c.slope c.currentSupply N := not_lt.mpr hres
      simp [sell, hN0, hns, hnr]

/-- Witness for C3: selling all 9 outstanding shares of the scenario
curve after the 10,000,000-lamport buy refunds 9,003,600 and resets
supply and reserve to 0. -/
theorem sell_spec_witness :
    sell { initialPrice := 1000000, slope := 100,
           currentSupply := 9, reserveBalance := 9003600 } 9 =
      .ok ({ initialPrice := 1000000, slope := 100,
             currentSupply := 0, reserveBalance := 0 },
           { burned := 9, refunded := 9003600 }) := by
  have h := ((sell_spec (CurveState.mk 1000000 100 9 9003600) 9).2
    (by decide) (by decide)).2 (by decide)
  simpa using h

/-- C4: after any sequence of successful Buy and Sell operations on a
curve that started with `reserveBalance = 0`, the reserve equals the
total amount charged by the Buys minus the total amount paid out by the
Sells; the payouts never exceed the deposits, so the reserve is never
driven negative nor credited with value not deposited. -/
theorem conservation (c : CurveState) (ops : List TradeOp)
    (c' : CurveState) (charged paid : Nat)
    (h0 : c.reserveBalance = 0)
    (h : runTrades c ops = some (c', charged, paid)) :
    c'.reserveBalance + paid = charged ∧ paid ≤ charged ∧
      c'.reserveBalance = charged - paid := by
  have hr := runTrades_reserve h
  rw [h0] at hr
  omega

/-- Witness for C4: the scenario buy followed by a full sell-back is a
successful sequence from reserve 0; it charges 9,003,600, pays out
9,003,600, and leaves the reserve at zero. -/
theorem conservation_witness :
    (CurveState.mk 1000000 100 0 0).reserveBalance + 9003600 = 9003600 ∧
    9003600 ≤ 9003600 ∧
    (CurveState.mk 1000000 100 0 0).reserveBalance = 9003600 - 9003600 :=
  conservation curveScenario [.buyT 10000000, .sellT 9]
    (CurveState.mk 1000000 100 0 0) 9003600 9003600 rfl (by decide)

/-- C5: the marginal price for supply `s` is
`initialPrice + s * slope`, computed with checked unsigned 64-bit
multiplication and addition: the exact value is returned whenever both
the product and the sum fit in u64, and the computation fails with the
`PriceOverflow` kind — never wrapping — whenever either leaves the u64
range. -/
theorem price_checked_formula (c : CurveState) :
    (c.currentSupply * c.slope < U64 →
      c.initialPrice + c.currentSupply * c.slope < U64 →
      priceOf c = .ok (c.initialPrice + c.currentSupply * c.slope))
    ∧ ((U64 ≤ c.currentSupply * c.slope ∨
        U64 ≤ c.initialPrice + c.currentSupply * c.slope) →
      priceOf c = .error .priceOverflow) := by
  constructor
  · intro hm hs
    simp [priceOf, checkedMul, checkedAdd, hm, hs]
  · intro hover
    rcases hover with hm | hs
    · simp [priceOf, checkedMul, not_lt.mpr hm]
    · have : ¬ c.initialPrice + c.currentSupply * c.slope < U64 := not_lt.mpr hs
      by_cases hm : c.currentSupply * c.slope < U64
      · simp [priceOf, checkedMul, checkedAdd, hm, this]
      · simp [priceOf, checkedMul, hm]

/-- Witness for C5: a small curve state is priced exactly, and a state
with `currentSupply * slope = 2^64` fails with `PriceOverflow`. -/
theorem price_checked_formula_witness :
    priceOf (CurveState.mk 100000 100 9 0) = .ok (100000 + 9 * 100) ∧
    priceOf (CurveState.mk 0 U64 1 0) = .error .priceOverflow :=
  ⟨(price_checked_formula (CurveState.mk 100000 100 9 0)).1 (by decide) (by decide),
   (price_checked_formula (CurveState.mk 0 U64 1 0)).2 (Or.inl (by decide))⟩

/-- C6: under fixed curve parameters, the checked price function is
monotone in the supply — for valid supplies `s1 < s2` (both priced
without overflow), `price(s1) ≤ price(s2)`, strictly when `slope > 0`. -/
theorem price_monotone (c1 c2 : CurveState) (v1 v2 : Nat)
    (hp : c1.initialPrice = c2.initialPrice) (hs : c1.slope = c2.slope)
    (hlt : c1.currentSupply < c2.currentSupply)
    (h1 : priceOf c1 = .ok v1) (h2 : priceOf c2 = .ok v2) :
    v1 ≤ v2 ∧ (0 < c1.slope → v1 < v2) := by
  obtain rfl := priceOf_ok h1
  obtain rfl := priceOf_ok h2
  rw [hp, hs]
  constructor
  · exact Nat.add_le_add_left
      (Nat.mul_le_mul_right c2.slope (Nat.le_of_lt hlt)) _
  · intro hsl
    exact Nat.add_lt_add_left (mul_lt_mul_of_pos_right hlt hsl) _

/-- Witness for C6: at `initialPrice = 100000`, `slope = 100`, the price
at supply 0 is below the price at supply 9. -/
theorem price_monotone_witness :
    (100000 : Nat) ≤ 100900 ∧
      (0 < (CurveState.mk 100000 100 0 0).slope → (100000 : Nat) < 100900) := by
  have h := price_monotone (CurveState.mk 100000 100 0 0)
    (CurveState.mk 100000 100 9 0) 100000 100900 rfl rfl
    (by decide) (by decide) (by decide)
  exact h

/-- C7: every failing Initialize, Buy, Sell or Quote leaves the store —
the curve records and their reserve vaults — exactly as it was, and the
caller receives one of the failure kinds listed for that operation in
the public contract. -/
theorem failed_ops_no_mutation (st : Store) (id : Nat) (pr : InitParams)
    (payment amount : Nat) :
    (∀ e, (initializeOp st id pr).2 = .error e →
      (initializeOp st id pr).1 = st ∧
      (e = .invalidPrice ∨ e = .invalidSlope ∨ e = .nameTooLong ∨
        e = .symbolTooLong ∨ e = .alreadyInitialized))
    ∧ (∀ e, (buyOp st id payment).2 = .error e →
      (buyOp st id payment).1 = st ∧
      (e = .curveNotFound ∨ e = .invalidAmount ∨ e = .insufficientPayment ∨
        e = .mathOverflow ∨ e = .supplyOverflow ∨ e = .reservesOverflow))
    ∧ (∀ e, (sellOp st id amount).2 = .error e →
      (sellOp st id amount).1 = st ∧
      (e = .curveNotFound ∨ e = .invalidAmount ∨ e = .insufficientSupply ∨
        e = .insufficientReserves))
    ∧ (∀ e, (quoteOp st id).2 = .error e →
      (quoteOp st id).1 = st ∧ e = .curveNotFound) := by
  refine ⟨?_, ?_, ?_, ?_⟩
  · intro e h
    unfold initializeOp at h ⊢
    repeat' split at h
    all_goals simp_all
    all_goals (repeat' split)
    all_goals rfl
  · intro e h
    unfold buyOp at h ⊢
    split at h
    next heq => simp_all
    next cst heq =>
      split at h
      next e2 heq2 =>
        injection h with h
        subst h
        simp [heq, heq2]
        rcases buy_error_kinds heq2 with h' | h' | h' | h' | h' <;> simp [h']
      next p heq2 => simp_all
  · intro e h
    unfold sellOp at h ⊢
    split at h
    next heq => simp_all
    next cst heq =>
      split at h
      next e2 heq2 =>
        injection h with h
        subst h
        simp [heq, heq2]
        rcases sell_error_kinds heq2 with h' | h' | h' <;> simp [h']
      next p heq2 => simp_all
  · intro e h
    unfold quoteOp at h ⊢
    split at h
    next heq => simp_all
    next cst heq => simp_all

/-- Witness for C7: on the empty store, a Buy fails `CurveNotFound` and
mutates nothing. -/
theorem failed_ops_no_mutation_witness :
    (buyOp ([] : Store) 0 5).1 = ([] : Store) ∧
      (Err.curveNotFound = .curveNotFound ∨ Err.curveNotFound = .invalidAmount ∨
        Err.curveNotFound = .insufficientPayment ∨
        Err.curveNotFound = .mathOverflow ∨
        Err.curveNotFound = .supplyOverflow ∨
        Err.curveNotFound = .reservesOverflow) :=
  (failed_ops_no_mutation ([] : Store) 0 ⟨1, 1, "T", "T", ""⟩ 5 1).2.1
    .curveNotFound (by decide)

/-- C8: a Buy with `payment = 0` and a Sell with `shareAmount = 0`
always fail with the `InvalidAmount` kind, for every curve state in the
store, and neither mutates the store (and hence neither the supply, the
reserve, nor — since no mint or burn instruction is issued on failure —
any holder balance). -/
theorem zero_amount_rejected (st : Store) (id : Nat) (c : CurveState)
    (h : lookupCurve st id = some c) :
    buyOp st id 0 = (st, .error .invalidAmount) ∧
      sellOp st id 0 = (st, .error .invalidAmount) := by
  constructor
  · simp [buyOp, h, buy]
  · simp [sellOp, h, sell]

/-- Witness for C8: on a store holding the scenario curve, zero-amount
Buy and Sell both fail `InvalidAmount` and leave the store unchanged. -/
theorem zero_amount_rejected_witness :
    buyOp [(0, curveScenario)] 0 0 =
      ([(0, curveScenario)], .error .invalidAmount) ∧
      sellOp [(0, curveScenario)] 0 0 =
        ([(0, curveScenario)], .error .invalidAmount) :=
  zero_amount_rejected [(0, curveScenario)] 0 curveScenario (by decide)

/-- C9: the two SOL-vault derivation schemes in the repository disagree.
`BondingCurveClient` and `TokenCreator` derive the vault from seeds
`["sol_vault", bondingCurvePda]`, while `create-token.ts`, the
standalone buy and sell scripts and the deployment documentation derive
it from `["sol_vault", tokenMint]`; for any token mint these yield
different addresses, so the client and the scripts address different
vault accounts for the same token. -/
theorem sol_vault_derivations_disagree :
    solVaultOfClient (.ext 0) ≠ solVaultOfScripts (.ext 0) := by
  decide

/-- C10: `TokenCreator.validateTokenParams` — which `createToken` runs
before any transaction is built or sent — rejects an empty name, an
empty symbol, decimals outside 0-18, an initial price above 1000 SOL, a
curve slope above 1 SOL, and a metadata URI longer than 200 characters,
each with a thrown error that aborts creation. -/
theorem create_token_client_validation (p : TokenCreationParams) :
    (p.name.length = 0 → isFailure (validateTokenParams p) = true)
    ∧ (p.symbol.length = 0 → isFailure (validateTokenParams p) = true)
    ∧ ((p.decimals < 0 ∨ 18 < p.decimals) →
        isFailure (validateTokenParams p) = true)
    ∧ (1000 < p.initialPrice → isFailure (validateTokenParams p) = true)
    ∧ (1 < p.curveSlope → isFailure (validateTokenParams p) = true)
    ∧ (∀ u, p.uri = some u → 200 < u.length →
        isFailure (validateTokenParams p) = true) := by
  have hb : isFailure (validateTokenParams p) = false →
      p.name.length ≠ 0 ∧ p.symbol.length ≠ 0 ∧
      0 ≤ p.decimals ∧ p.decimals ≤ 18 ∧
      p.initialPrice ≤ 1000 ∧ p.curveSlope ≤ 1 ∧
      (∀ u, p.uri = some u → u.length ≤ 200) := by
    intro h
    unfold validateTokenParams at h
    repeat' split at h
    all_goals simp_all [isFailure, not_lt]
  by_cases hfe : isFailure (validateTokenParams p) = true
  · exact ⟨fun _ => hfe, fun _ => hfe, fun _ => hfe, fun _ => hfe,
      fun _ => hfe, fun _ _ _ => hfe⟩
  · have hff : isFailure (validateTokenParams p) = false := by
      cases hx : isFailure (validateTokenParams p) with
      | true => exact absurd hx hfe
      | false => rfl
    obtain ⟨h1, h2, h3, h4, h5, h6, h7⟩ := hb hff
    refine ⟨fun h => absurd h h1, fun h => absurd h h2, ?_, ?_, ?_, ?_⟩
    · intro h
      rcases h with h | h <;> omega
    · intro h
      exact absurd h (not_lt.mpr h5)
    · intro h
      exact absurd h (not_lt.mpr h6)
    · intro u hu h
      exact absurd h (not_lt.mpr (h7 u hu))

/-- A 201-character metadata URI, for exercising the URI length check. -/
def longUri : String := String.mk (List.replicate 201 'a')

/-- Witness for C10: concrete parameter sets exercising each rejected
condition — empty name, empty symbol, 19 decimals, a 1001-SOL initial
price, a 2-SOL curve slope, and a 201-character metadata URI — all make
`validateTokenParams` fail. -/
theorem create_token_client_validation_witness :
    isFailure (validateTokenParams
      (TokenCreationParams.mk "" "DEV" none 9 1 1)) = true ∧
    isFailure (validateTokenParams
      (TokenCreationParams.mk "DevCoin" "" none 9 1 1)) = true ∧
    isFailure (validateTokenParams
      (TokenCreationParams.mk "DevCoin" "DEV" none 19 1 1)) = true ∧
    isFailure (validateTokenParams
      (TokenCreationParams.mk "DevCoin" "DEV" none 9 1001 1)) = true ∧
    isFailure (validateTokenParams
      (TokenCreationParams.mk "DevCoin" "DEV" none 9 1 2)) = true ∧
    isFailure (validateTokenParams
      (TokenCreationParams.mk "DevCoin" "DEV" (some longUri) 9 1 1)) = true :=
  ⟨(create_token_client_validation
      (TokenCreationParams.mk "" "DEV" none 9 1 1)).1 (by decide),
   (create_token_client_validation
      (TokenCreationParams.mk "DevCoin" "" none 9 1 1)).2.1 (by decide),
   (create_token_client_validation
      (TokenCreationParams.mk "DevCoin" "DEV" none 19 1 1)).2.2.1
      (Or.inr (by decide)),
   (create_token_client_validation
      (TokenCreationParams.mk "DevCoin" "DEV" none 9 1001 1)).2.2.2.1
      (by norm_num),
   (create_token_client_validation
      (TokenCreationParams.mk "DevCoin" "DEV" none 9 1 2)).2.2.2.2.1
      (by norm_num),
   (create_token_client_validation
      (TokenCreationParams.mk "DevCoin" "DEV" (some longUri) 9 1 1)).2.2.2.2.2
      longUri rfl (by set_option maxRecDepth 8000 in decide)⟩

end BondingCurve
